import Mathlib

/-!
Shallow embedding of the bootstrap orchestrator in `src/main.ts` of the
evolution-api repository: the CORS origin policy, the terminal error
middleware (JSON envelope plus best-effort webhook notification), the 404
handler, the HTTP/HTTPS transport selection with its fallback, the port
resolution, and the SIGTERM shutdown handler.
-/

/-- JS truthiness of an optional string value: `undefined` and the empty
string are falsy. -/
def jsTruthyStr : Option String → Bool
  | none => false
  | some s => !(s == "")

/-- JS `a || b` for an optional string attribute: falls back when `a` is
`undefined` or the empty string. -/
def jsOrStr (a : Option String) (b : String) : String :=
  match a with
  | none => b
  | some s => if s == "" then b else s

/-- JS `a || b` for a plain string such as `err.message`: falls back when
`a` is the empty string. -/
def jsStrOr (a b : String) : String :=
  if a == "" then b else a

/-- JS `a || b` for an optional numeric attribute: falls back when `a` is
`undefined` or `0`. -/
def jsOrInt (a : Option Int) (b : Int) : Int :=
  match a with
  | none => b
  | some n => if n == 0 then b else n

/-- Outcome of the cors `origin` callback: `callback(null, true)` or
`callback(new Error(msg))`. -/
inductive CorsDecision
  | allow
  | reject (msg : String)
deriving DecidableEq, Repr

/-- The `origin(requestOrigin, callback)` function passed to the cors
middleware (main.ts lines 32-37): allow unconditionally when ORIGIN contains
the wildcard, otherwise allow only a truthy requestOrigin found in ORIGIN by
`indexOf`, and reject everything else with the fixed error. `requestOrigin`
is `none` when the request carries no Origin header. -/
def corsOrigin (ORIGIN : List String) (requestOrigin : Option String) : CorsDecision :=
  if ORIGIN.contains "*" then .allow
  else if jsTruthyStr requestOrigin && ORIGIN.contains (requestOrigin.getD "") then .allow
  else .reject "Not allowed by CORS"

/-- The error object reaching the terminal error middleware: `message` is the
`Error.message` string, while `error` and `status` are the optional extra
attributes the handler reads with `(err as any)`. -/
structure JsError where
  error : Option String
  message : String
  status : Option Int
deriving DecidableEq, Repr

/-- The client-visible reply built at main.ts lines 96-100: the HTTP status
header set by `res.status(...)` and the JSON body
`{ status, error, response: { message } }`. -/
structure Envelope where
  httpStatus : Int
  status : Int
  error : String
  message : String
deriving DecidableEq, Repr

/-- Lines 96-100: `res.status(err.status || 500).json({ status: err.status ||
500, error: err.error || 'Internal Server Error', response: { message:
err.message || 'Internal Server Error' } })`. -/
def errorEnvelope (err : JsError) : Envelope :=
  { httpStatus := jsOrInt err.status 500
    status := jsOrInt err.status 500
    error := jsOrStr err.error "Internal Server Error"
    message := jsStrOr err.message "Internal Server Error" }

/-- The `errorData` object built at main.ts lines 76-87 (field names match the
source: `event`, `data.error`, `data.message`, `data.status`,
`data.response.message`, `date_time`, `api_key`, `server_url`). -/
structure ErrorData where
  event : String
  data_error : String
  data_message : String
  data_status : Int
  data_response_message : String
  date_time : String
  api_key : String
  server_url : String
deriving DecidableEq, Repr

/-- Lines 70-71: `tzoffset = new Date().getTimezoneOffset() * 60000` and
`localISOTime = new Date(Date.now() - tzoffset).toISOString()`. The ISO
rendering routine is a JS library function outside this repository, so it is
a parameter; the code hands it the epoch milliseconds shifted by the local
timezone offset. -/
def localISOTime (toISOString : Int → String) (nowMs tzOffsetMinutes : Int) : String :=
  toISOString (nowMs - tzOffsetMinutes * 60000)

/-- Lines 76-87: build the webhook payload from the error and the globals. -/
def buildErrorData (err : JsError) (now globalApiKey serverUrl : String) : ErrorData :=
  { event := "error"
    data_error := jsOrStr err.error "Internal Server Error"
    data_message := jsStrOr err.message "Internal Server Error"
    data_status := jsOrInt err.status 500
    data_response_message := jsStrOr err.message "Internal Server Error"
    date_time := now
    api_key := globalApiKey
    server_url := serverUrl }

/-- The ambient inputs the error middleware reads: the configured
`WEBHOOK.EVENTS.ERRORS_WEBHOOK` URL (none when unset), the global api key and
server URL, the ISO renderer and the current wall clock and timezone offset. -/
structure MwEnv where
  errorsWebhook : Option String
  apiKey : String
  serverUrl : String
  toISOString : Int → String
  nowMs : Int
  tzOffsetMinutes : Int

/-- Line 69: `webhook.EVENTS.ERRORS_WEBHOOK && webhook.EVENTS.ERRORS_WEBHOOK
!== '' && webhook.EVENTS` — true exactly when the URL is set and non-empty. -/
def webhookEnabled (url : Option String) : Bool :=
  jsTruthyStr url && !(url == some "")

/-- Where, if anywhere, the notifier branch inside the `try` throws: while
building the payload (before anything was logged or sent) or while awaiting
the outbound POST (network failure, timeout, non-2xx). -/
inductive NotifyFailure
  | noFail
  | buildThrow
  | postThrow
deriving DecidableEq, Repr

/-- Observable steps of the error middleware, in the order the `async`
function performs them: `logger.error(errorData)`, the awaited
`axios.create({ baseURL }).post('', errorData)` settling, the
`res.status(...).json(...)` reply, and `next()`. -/
inductive TraceEv
  | logError (d : ErrorData)
  | post (url : String) (body : ErrorData)
  | respond (r : Envelope)
  | next
deriving DecidableEq, Repr

/-- The error middleware of main.ts lines 64-101 as a sequential event trace:
`await` sequencing is list order. With no error it only calls `next()`.
Otherwise, when the webhook is enabled, the notifier branch logs the payload
and awaits the POST; any throw inside the `try` (build or dispatch) is caught
and dropped, after which the reply is sent unconditionally. -/
def errorMiddleware (env : MwEnv) (fail : NotifyFailure) (err : Option JsError) : List TraceEv :=
  match err with
  | none => [.next]
  | some e =>
    let notifierEvents :=
      if webhookEnabled env.errorsWebhook then
        match fail with
        | .buildThrow => []
        | _ =>
          let d := buildErrorData e
            (localISOTime env.toISOString env.nowMs env.tzOffsetMinutes)
            env.apiKey env.serverUrl
          [.logError d, .post (env.errorsWebhook.getD "" ++ "") d]
      else []
    notifierEvents ++ [.respond (errorEnvelope e)]

/-- The replies occurring in a middleware trace. -/
def responses (t : List TraceEv) : List Envelope :=
  t.filterMap fun ev =>
    match ev with
    | .respond r => some r
    | _ => none

/-- The outbound POSTs occurring in a middleware trace. -/
def posts (t : List TraceEv) : List (String × ErrorData) :=
  t.filterMap fun ev =>
    match ev with
    | .post u d => some (u, d)
    | _ => none

/-- Modelled from the spec: the ErrorEvent record of spec section 3,
`{ kind, error, message, status, timestamp, apiKey, serverUrl }`. -/
structure ErrorEventSpec where
  kind : String
  error : String
  message : String
  status : Int
  timestamp : String
  apiKey : String
  serverUrl : String
deriving DecidableEq, Repr

/-- Projection reading the spec's ErrorEvent fields off the payload the code
builds: `event` is the spec's `kind`, `date_time` its `timestamp`, `api_key`
its `apiKey` and `server_url` its `serverUrl`. -/
def ErrorData.toEvent (d : ErrorData) : ErrorEventSpec :=
  { kind := d.event
    error := d.data_error
    message := d.data_message
    status := d.data_status
    timestamp := d.date_time
    apiKey := d.api_key
    serverUrl := d.server_url }

namespace HttpStatus

/-- Modelled from the spec: `HttpStatus.NOT_FOUND` comes from the routes
module, which is outside the repository slice; the spec fixes unmatched
routes to status 404. -/
def NOT_FOUND : Int := 404

end HttpStatus

/-- The JSON body of the 404 reply, `{ status, error, response: { message } }`
with `message` an array of strings. -/
structure NotFoundBody where
  status : Int
  error : String
  message : List String
deriving DecidableEq, Repr

/-- Kernel-reducible model of JS `String.prototype.toUpperCase` (ASCII): map
`Char.toUpper` over the characters. -/
def toUpperCase (s : String) : String := String.mk (s.data.map Char.toUpper)

/-- The 404 handler of main.ts lines 104-112: HTTP status and body built from
the request method and url. -/
def notFoundHandler (method url : String) : Int × NotFoundBody :=
  (HttpStatus.NOT_FOUND,
   { status := HttpStatus.NOT_FOUND
     error := "Not Found"
     message := ["Cannot " ++ toUpperCase method ++ " " ++ url] })

/-- The configured transport kind, `httpServer.TYPE`. -/
inductive TransportKind
  | http
  | https
deriving DecidableEq, Repr

/-- Log levels of the Logger calls the orchestrator makes. -/
inductive LogLevel
  | warn
  | info
  | error
  | log
deriving DecidableEq, Repr

/-- One emitted log line: its level and its message. -/
structure LogLine where
  level : LogLevel
  msg : String
deriving DecidableEq, Repr

/-- Whether the character list `pat` is a prefix of the second list. -/
def startsWithChars : List Char → List Char → Bool
  | [], _ => true
  | _ :: _, [] => false
  | p :: ps, c :: cs => p == c && startsWithChars ps cs

/-- Whether the character list `pat` occurs contiguously inside the second
list. -/
def occursIn (pat : List Char) : List Char → Bool
  | [] => pat.isEmpty
  | c :: cs => startsWithChars pat (c :: cs) || occursIn pat cs

/-- Whether `pat` occurs inside `msg` (used to state that a log line names a
certificate environment variable). -/
def mentions (msg pat : String) : Bool :=
  occursIn pat.data msg.data

/-- Result of the transport-selection block: the final `httpServer.TYPE`, the
final `server` value, and the log lines emitted on the way. -/
structure SelectOutcome (α : Type) where
  TYPE : TransportKind
  server : Option α
  logs : List LogLine
deriving DecidableEq, Repr

/-- Lines 127-137 of main.ts: look the configured kind up in ServerUP; when
that yields null, warn, point at the two certificate env vars, downgrade
`httpServer.TYPE` to http and look up again. `ServerUP` itself lives outside
the repository slice, so it is a parameter mapping a transport kind to the
listener it constructs (none for a failed TLS construction). -/
def serverUpSelect {α : Type} (ServerUP : TransportKind → Option α) (TYPE : TransportKind) :
    SelectOutcome α :=
  match ServerUP TYPE with
  | some s => { TYPE := TYPE, server := some s, logs := [] }
  | none =>
    { TYPE := .http
      server := ServerUP .http
      logs := [⟨.warn, "SSL cert load failed — falling back to HTTP."⟩,
               ⟨.info, "Ensure \x27SSL_CONF_PRIVKEY\x27 and \x27SSL_CONF_FULLCHAIN\x27 env vars point to valid certificate files."⟩] }

/-- A JS number that is either an actual integer or NaN (the port arithmetic
in main.ts never produces fractions). -/
inductive JsNum
  | nan
  | int (n : Int)
deriving DecidableEq, Repr

/-- Accumulate the decimal digits of a character list; `none` as soon as a
non-digit is met. -/
def digitsToNatAux : List Char → Nat → Option Nat
  | [], acc => some acc
  | c :: cs, acc => if c.isDigit then digitsToNatAux cs (acc * 10 + (c.toNat - 48)) else none

/-- The natural number a non-empty all-digit character list denotes. -/
def digitsToNat (l : List Char) : Option Nat :=
  match l with
  | [] => none
  | _ => digitsToNatAux l 0

/-- The integer an optionally `-`-signed decimal character list denotes. -/
def parseDecInt (l : List Char) : Option Int :=
  match l with
  | '-' :: rest => (digitsToNat rest).map fun n => -(n : Int)
  | _ => (digitsToNat l).map fun n => (n : Int)

/-- Strip leading and trailing whitespace from a character list. -/
def trimChars (l : List Char) : List Char :=
  ((l.dropWhile Char.isWhitespace).reverse.dropWhile Char.isWhitespace).reverse

/-- Model of JS `Number(string)` on the shapes the orchestrator meets:
empty or all-whitespace strings convert to 0, decimal integer literals
(optionally negative) to their value, and anything else to NaN. Fractional,
exponent, plus-signed and radix-prefixed literals are outside this model. -/
def jsNumberOfString (s : String) : JsNum :=
  match trimChars s.data with
  | [] => .int 0
  | t =>
    match parseDecInt t with
    | some n => .int n
    | none => .nan

/-- Line 140: `Number(process.env.PORT ?? httpServer.PORT ?? 8080)`. The `??`
chain takes the environment string whenever it is present (even empty),
otherwise the configured port, otherwise 8080; `Number` then converts. -/
def resolvePORT (envPORT : Option String) (cfgPORT : Option Int) : JsNum :=
  match envPORT with
  | some s => jsNumberOfString s
  | none =>
    match cfgPORT with
    | some p => .int p
    | none => .int 8080

/-- Observable steps of main.ts lines 139-154, in source order: the
`httpServer.PORT = PORT` assignment, `eventManager?.init?.(server)`,
`server.listen(httpServer.PORT)` and the startup log line. -/
inductive BootEv
  | setConfigPort (p : JsNum)
  | eventManagerInit
  | listen (p : JsNum)
  | logOn (kind : TransportKind) (p : JsNum)
deriving DecidableEq, Repr

/-- Lines 139-154: resolve the port, persist it into the config, init the
event manager, bind the listener, and log, in source order. -/
def portBindPhase (envPORT : Option String) (cfgPORT : Option Int) (TYPE : TransportKind) :
    List BootEv :=
  let PORT := resolvePORT envPORT cfgPORT
  [.setConfigPort PORT, .eventManagerInit, .listen PORT, .logOn TYPE PORT]

/-- Outcome of the SIGTERM handler: the process exit code, the time in
milliseconds (from signal receipt) at which the exit happens, and the log
lines emitted. -/
structure ShutdownOutcome where
  exitCode : Int
  exitAtMs : Nat
  logs : List LogLine
deriving DecidableEq, Repr

/-- The SIGTERM handler of main.ts lines 157-169. `closeThrows` models the
synchronous `server.close` call itself throwing (caught: log, exit 1);
`closeCallbackAt` the time at which the close completion callback would fire
(`none`: never). Otherwise two exit sources race — the close callback
(`process.exit(0)` after logging) and the 10 000 ms `setTimeout`
(`process.exit(0)`) — and the first `process.exit` call wins. -/
def sigtermHandler (closeThrows : Bool) (closeCallbackAt : Option Nat) : ShutdownOutcome :=
  if closeThrows then
    { exitCode := 1
      exitAtMs := 0
      logs := [⟨.warn, "SIGTERM received — shutting down gracefully"⟩,
               ⟨.error, "Error on graceful shutdown"⟩] }
  else
    match closeCallbackAt with
    | some t =>
      if t ≤ 10000 then
        { exitCode := 0
          exitAtMs := t
          logs := [⟨.warn, "SIGTERM received — shutting down gracefully"⟩,
                   ⟨.info, "HTTP server closed"⟩] }
      else
        { exitCode := 0
          exitAtMs := 10000
          logs := [⟨.warn, "SIGTERM received — shutting down gracefully"⟩] }
    | none =>
      { exitCode := 0
        exitAtMs := 10000
        logs := [⟨.warn, "SIGTERM received — shutting down gracefully"⟩] }

/-- The process signals for which main.ts registers a handler: the single
`process.on('SIGTERM', ...)` call at line 157. -/
def handledSignals : List String := ["SIGTERM"]

/-- A concrete ISO renderer for sample evaluations. -/
def sampleToISO : Int → String := fun ms => "iso:" ++ toString ms

/-- A sample middleware environment with the webhook configured. -/
def envHook : MwEnv :=
  { errorsWebhook := some "https://hook.example"
    apiKey := "key1"
    serverUrl := "https://srv.example"
    toISOString := sampleToISO
    nowMs := 1000000
    tzOffsetMinutes := -180 }

/-- The same environment with the webhook URL unset. -/
def envNoHook : MwEnv :=
  { envHook with errorsWebhook := none }

/-- A sample error object carrying both optional attributes. -/
def errSample : JsError :=
  { error := some "Bad Request", message := "boom", status := some 400 }

/-- A sample error object whose optional attributes are present but falsy. -/
def errFalsy : JsError :=
  { error := some "", message := "", status := some 0 }

/-- The payload the sample environment builds for the sample error. -/
def dSample : ErrorData :=
  buildErrorData errSample (localISOTime sampleToISO 1000000 (-180)) "key1" "https://srv.example"

/-- A ServerUP table whose TLS construction fails and whose plain
construction succeeds. -/
def selFailHttps : TransportKind → Option Unit := fun t =>
  match t with
  | .https => none
  | .http => some ()

/-- C1: with the wildcard sentinel in the allowed-origin set the cors origin
callback allows every request, including requests carrying no Origin header;
without the wildcard, a request whose Origin is absent or not a member of
the set is rejected with the generic error `Not allowed by CORS`; and every
rejection carries that same fixed message whatever the configured list is,
so the failure never exposes the allowed-origin list. -/
theorem corsOrigin_wildcard_and_rejection (ORIGIN : List String) :
    ("*" ∈ ORIGIN → ∀ ro, corsOrigin ORIGIN ro = CorsDecision.allow) ∧
    ("*" ∉ ORIGIN → ∀ ro, (ro = none ∨ ∃ s, ro = some s ∧ s ∉ ORIGIN) →
      corsOrigin ORIGIN ro = CorsDecision.reject "Not allowed by CORS") ∧
    (∀ ro m, corsOrigin ORIGIN ro = CorsDecision.reject m → m = "Not allowed by CORS") := by
  refine ⟨?_, ?_, ?_⟩
  · intro hw ro
    simp [corsOrigin, hw]
  · intro hw ro hro
    rcases hro with rfl | ⟨s, rfl, hs⟩
    · simp [corsOrigin, hw, jsTruthyStr]
    · simp [corsOrigin, hw, hs]
  · intro ro m h
    unfold corsOrigin at h
    split at h
    · simp at h
    · split at h
      · simp at h
      · injection h with h2
        exact h2.symm

/-- C1 evaluation at concrete inputs: a wildcard configuration allows a
request with no Origin header, and a non-wildcard configuration rejects a
non-member origin with the fixed message. -/
theorem corsOrigin_wildcard_and_rejection_witness :
    corsOrigin ["*"] none = CorsDecision.allow ∧
    corsOrigin ["https://a.example"] (some "https://b.example") =
      CorsDecision.reject "Not allowed by CORS" := by
  refine ⟨(corsOrigin_wildcard_and_rejection ["*"]).1 (by decide) none, ?_⟩
  exact (corsOrigin_wildcard_and_rejection ["https://a.example"]).2.1 (by decide)
    (some "https://b.example") (Or.inr ⟨"https://b.example", rfl, by decide⟩)

/-- C2 counterexample: for the error object whose `status` attribute is the
present value `0` and whose `error` attribute is the present value `""`, the
envelope carries `500` and `Internal Server Error`, not the present
attribute values, because the code uses JS `||` (falsy) fallbacks. -/
theorem errorEnvelope_falsy_attrs_counterexample :
    errFalsy.status = some 0 ∧ (errorEnvelope errFalsy).status = 500 ∧ (0 : Int) ≠ 500 ∧
    errFalsy.error = some "" ∧ (errorEnvelope errFalsy).error = "Internal Server Error" :=
  ⟨rfl, rfl, by decide, rfl, rfl⟩

/-- C2 (amended): the envelope status equals the error's `status` attribute
when present and nonzero and falls back to 500 when the attribute is absent
or `0`; the envelope error equals the `error` attribute when present and
non-empty and falls back to `Internal Server Error` otherwise; the message
is the single string from the error's message with the same fallback when
empty; and the HTTP status header always carries the same numeric status as
the body. -/
theorem errorEnvelope_fallback_semantics (err : JsError) :
    (∀ n, err.status = some n → n ≠ 0 → (errorEnvelope err).status = n) ∧
    ((err.status = none ∨ err.status = some 0) → (errorEnvelope err).status = 500) ∧
    (∀ s, err.error = some s → s ≠ "" → (errorEnvelope err).error = s) ∧
    ((err.error = none ∨ err.error = some "") →
      (errorEnvelope err).error = "Internal Server Error") ∧
    (err.message ≠ "" → (errorEnvelope err).message = err.message) ∧
    (err.message = "" → (errorEnvelope err).message = "Internal Server Error") ∧
    (errorEnvelope err).httpStatus = (errorEnvelope err).status := by
  refine ⟨?_, ?_, ?_, ?_, ?_, ?_, rfl⟩
  · intro n h hn
    simp [errorEnvelope, jsOrInt, h, hn]
  · intro h
    rcases h with h | h <;> simp [errorEnvelope, jsOrInt, h]
  · intro s h hs
    simp [errorEnvelope, jsOrStr, h, hs]
  · intro h
    rcases h with h | h <;> simp [errorEnvelope, jsOrStr, h]
  · intro h
    simp [errorEnvelope, jsStrOr, h]
  · intro h
    simp [errorEnvelope, jsStrOr, h]

/-- C2 evaluation at a concrete input: a present nonzero `status` attribute
reaches the envelope unchanged. -/
theorem errorEnvelope_fallback_semantics_witness :
    (errorEnvelope errSample).status = 400 :=
  (errorEnvelope_fallback_semantics errSample).1 400 rfl (by decide)

/-- C3: whatever the webhook configuration and wherever the notifier branch
throws (during payload build or while awaiting the POST), the middleware
sends exactly the one reply computed from the error alone — identical to the
reply sent when no webhook is configured — and when the webhook URL is unset
or empty the notifier branch is a no-op: the trace is just the reply. -/
theorem errorMiddleware_isolates_webhook (env : MwEnv) (fail : NotifyFailure) (e : JsError) :
    responses (errorMiddleware env fail (some e)) = [errorEnvelope e] ∧
    ((env.errorsWebhook = none ∨ env.errorsWebhook = some "") →
      errorMiddleware env fail (some e) = [TraceEv.respond (errorEnvelope e)]) := by
  constructor
  · cases h : webhookEnabled env.errorsWebhook <;> cases fail <;>
      simp [errorMiddleware, responses, h]
  · intro h
    have hd : webhookEnabled env.errorsWebhook = false := by
      rcases h with h | h <;> simp [webhookEnabled, h, jsTruthyStr]
    simp [errorMiddleware, hd]

/-- C3 evaluation at a concrete input: with the webhook URL unset and the
dispatch failing, the trace is exactly the reply. -/
theorem errorMiddleware_isolates_webhook_witness :
    errorMiddleware envNoHook NotifyFailure.postThrow (some errSample) =
      [TraceEv.respond (errorEnvelope errSample)] :=
  (errorMiddleware_isolates_webhook envNoHook NotifyFailure.postThrow errSample).2 (Or.inl rfl)

/-- C5 counterexample: with the webhook configured, the awaited POST sits at
position 1 of the middleware trace and the reply only at position 2, and no
reply at all has been sent in the trace prefix before the POST settles: the
client response is delayed until the outbound POST completes, refuting the
claimed fire-and-forget semantics. -/
theorem webhook_await_blocks_response_counterexample :
    (errorMiddleware envHook NotifyFailure.noFail (some errSample)).get? 1 =
      some (TraceEv.post "https://hook.example" dSample) ∧
    (errorMiddleware envHook NotifyFailure.noFail (some errSample)).get? 2 =
      some (TraceEv.respond (errorEnvelope errSample)) ∧
    responses ((errorMiddleware envHook NotifyFailure.noFail (some errSample)).take 2) = [] :=
  ⟨rfl, rfl, rfl⟩

/-- C5 (amended): when the webhook is enabled and the notifier branch gets as
far as dispatching, the middleware awaits the POST before replying — the
trace is log, then the POST settling, then the reply — so the client
response is delayed until the outbound POST completes; the dispatch outcome
still never changes the reply itself. -/
theorem webhook_post_awaited_before_response (env : MwEnv) (fail : NotifyFailure) (e : JsError)
    (h : webhookEnabled env.errorsWebhook = true) (hb : fail ≠ NotifyFailure.buildThrow) :
    errorMiddleware env fail (some e) =
      [TraceEv.logError (buildErrorData e
         (localISOTime env.toISOString env.nowMs env.tzOffsetMinutes) env.apiKey env.serverUrl),
       TraceEv.post (env.errorsWebhook.getD "" ++ "")
         (buildErrorData e
           (localISOTime env.toISOString env.nowMs env.tzOffsetMinutes) env.apiKey env.serverUrl),
       TraceEv.respond (errorEnvelope e)] ∧
    responses ((errorMiddleware env fail (some e)).take 2) = [] ∧
    responses (errorMiddleware env fail (some e)) = [errorEnvelope e] := by
  cases fail with
  | buildThrow => exact absurd rfl hb
  | noFail => simp [errorMiddleware, responses, h]
  | postThrow => simp [errorMiddleware, responses, h]

/-- C5 evaluation at a concrete input: the reply content is unaffected by the
awaited dispatch. -/
theorem webhook_post_awaited_before_response_witness :
    responses (errorMiddleware envHook NotifyFailure.noFail (some errSample)) =
      [errorEnvelope errSample] :=
  (webhook_post_awaited_before_response envHook NotifyFailure.noFail errSample rfl
    (by decide)).2.2

/-- C6: the 404 handler replies with HTTP status 404 and exactly
`{ status: 404, error: "Not Found", response: { message: ["Cannot <METHOD>
<path>"] } }`, the method upper-cased and the message a one-element array;
and the error middleware invokes `next` exactly when there was no error to
handle, so control falls through to the 404 handler only then. -/
theorem notFound_envelope_and_error_gating (method url : String) (env : MwEnv)
    (fail : NotifyFailure) :
    notFoundHandler method url =
      (404, { status := 404, error := "Not Found",
              message := ["Cannot " ++ toUpperCase method ++ " " ++ url] }) ∧
    (notFoundHandler method url).2.message.length = 1 ∧
    (∀ err, TraceEv.next ∈ errorMiddleware env fail err ↔ err = none) := by
  refine ⟨rfl, rfl, ?_⟩
  intro err
  cases err with
  | none => simp [errorMiddleware]
  | some e =>
    cases h : webhookEnabled env.errorsWebhook <;> cases fail <;>
      simp [errorMiddleware, h]

/-- C6 evaluation at a concrete input: the unmatched route `PATCH /foo/bar`. -/
theorem notFound_envelope_and_error_gating_witness :
    notFoundHandler "patch" "/foo/bar" =
      (404, { status := 404, error := "Not Found", message := ["Cannot PATCH /foo/bar"] }) :=
  (notFound_envelope_and_error_gating "patch" "/foo/bar" envHook NotifyFailure.noFail).1

/-- C9: whenever the notifier dispatches, the trace carries exactly one POST
(no retry), addressed to the configured webhook URL with no path suffix
appended, and its body read through the spec's ErrorEvent field names is
`kind: "error"`, the error/message/status derived from the error object with
their fallbacks, the ISO timestamp of the wall clock adjusted by the local
timezone offset, the global api key and the server URL. -/
theorem webhook_single_post_payload (env : MwEnv) (fail : NotifyFailure) (e : JsError)
    (h : webhookEnabled env.errorsWebhook = true) (hb : fail ≠ NotifyFailure.buildThrow) :
    posts (errorMiddleware env fail (some e)) =
      [(env.errorsWebhook.getD "",
        buildErrorData e
          (localISOTime env.toISOString env.nowMs env.tzOffsetMinutes) env.apiKey env.serverUrl)] ∧
    (∀ u d, (u, d) ∈ posts (errorMiddleware env fail (some e)) →
      d.toEvent =
        { kind := "error"
          error := jsOrStr e.error "Internal Server Error"
          message := jsStrOr e.message "Internal Server Error"
          status := jsOrInt e.status 500
          timestamp := env.toISOString (env.nowMs - env.tzOffsetMinutes * 60000)
          apiKey := env.apiKey
          serverUrl := env.serverUrl }) := by
  have hp : posts (errorMiddleware env fail (some e)) =
      [(env.errorsWebhook.getD "",
        buildErrorData e
          (localISOTime env.toISOString env.nowMs env.tzOffsetMinutes) env.apiKey env.serverUrl)] := by
    cases fail with
    | buildThrow => exact absurd rfl hb
    | noFail => simp [errorMiddleware, posts, h]
    | postThrow => simp [errorMiddleware, posts, h]
  refine ⟨hp, ?_⟩
  intro u d hm
  rw [hp] at hm
  simp only [List.mem_singleton, Prod.mk.injEq] at hm
  rw [hm.2]
  rfl

/-- C9 evaluation at a concrete input: the single POST and its payload. -/
theorem webhook_single_post_payload_witness :
    posts (errorMiddleware envHook NotifyFailure.noFail (some errSample)) =
      [("https://hook.example", dSample)] :=
  (webhook_single_post_payload envHook NotifyFailure.noFail errSample rfl (by decide)).1

/-- C4 counterexample: on a concrete failed TLS construction the fallback
does log a warning, but no warn-level line names the certificate env vars:
the names appear only on the accompanying info-level line, refuting the
claim that the warning itself names them. -/
theorem serverUp_warn_line_counterexample :
    (serverUpSelect selFailHttps TransportKind.https).logs.filter
        (fun l => l.level == LogLevel.warn) ≠ [] ∧
    (((serverUpSelect selFailHttps TransportKind.https).logs.filter
        (fun l => l.level == LogLevel.warn)).all
      (fun l => !(mentions l.msg "SSL_CONF_PRIVKEY") &&
        !(mentions l.msg "SSL_CONF_FULLCHAIN"))) = true := by
  exact ⟨by decide, by decide⟩

/-- C4 (amended): when TLS listener construction fails (the selector returns
the null sentinel), the orchestrator logs a warning, an accompanying
info-level line names both certificate env vars SSL_CONF_PRIVKEY and
SSL_CONF_FULLCHAIN, the configuration's transport kind is downgraded to http
and selection is retried for the plain listener; and in every case the final
server is the one the selector yields for the final kind, so after binding
the config's transport kind reflects the transport actually running. -/
theorem serverUp_fallback_downgrade {α : Type} (ServerUP : TransportKind → Option α)
    (TYPE : TransportKind) (h : ServerUP TYPE = none) :
    (serverUpSelect ServerUP TYPE).TYPE = TransportKind.http ∧
    (serverUpSelect ServerUP TYPE).server = ServerUP TransportKind.http ∧
    ((serverUpSelect ServerUP TYPE).logs.any fun l => l.level == LogLevel.warn) = true ∧
    ((serverUpSelect ServerUP TYPE).logs.any fun l =>
      l.level == LogLevel.info && mentions l.msg "SSL_CONF_PRIVKEY" &&
        mentions l.msg "SSL_CONF_FULLCHAIN") = true ∧
    (∀ T, (serverUpSelect ServerUP T).server = ServerUP (serverUpSelect ServerUP T).TYPE) := by
  have e1 : (serverUpSelect ServerUP TYPE).TYPE = TransportKind.http := by
    unfold serverUpSelect
    rw [h]
  have e2 : (serverUpSelect ServerUP TYPE).server = ServerUP TransportKind.http := by
    unfold serverUpSelect
    rw [h]
  have e3 : (serverUpSelect ServerUP TYPE).logs =
      [⟨LogLevel.warn, "SSL cert load failed — falling back to HTTP."⟩,
       ⟨LogLevel.info, "Ensure \x27SSL_CONF_PRIVKEY\x27 and \x27SSL_CONF_FULLCHAIN\x27 env vars point to valid certificate files."⟩] := by
    unfold serverUpSelect
    rw [h]
  refine ⟨e1, e2, by rw [e3]; decide, by rw [e3]; decide, ?_⟩
  intro T
  unfold serverUpSelect
  cases hT : ServerUP T <;> simp [hT]

/-- C4 evaluation at a concrete input: the failed TLS selection downgrades
the kind to http. -/
theorem serverUp_fallback_downgrade_witness :
    (serverUpSelect selFailHttps TransportKind.https).TYPE = TransportKind.http :=
  (serverUp_fallback_downgrade selFailHttps TransportKind.https rfl).1

/-- C7: the effective port is the environment override when present,
otherwise the configured port, otherwise the hard default 8080; and the
resolved value is assigned into the configuration as the first step of the
bind phase, before the event-manager init, the listen call and the startup
log line, all of which carry that same resolved port. -/
theorem portResolution_precedence_and_persist :
    resolvePORT (some "9000") (some 8080) = JsNum.int 9000 ∧
    resolvePORT none (some 8080) = JsNum.int 8080 ∧
    resolvePORT none none = JsNum.int 8080 ∧
    (∀ envPORT cfgPORT TYPE,
      portBindPhase envPORT cfgPORT TYPE =
        [BootEv.setConfigPort (resolvePORT envPORT cfgPORT), BootEv.eventManagerInit,
         BootEv.listen (resolvePORT envPORT cfgPORT),
         BootEv.logOn TYPE (resolvePORT envPORT cfgPORT)]) :=
  ⟨by decide, rfl, rfl, fun _ _ _ => rfl⟩

/-- C7 evaluation at a concrete input: override 9000 beats configured 8080. -/
theorem portResolution_precedence_and_persist_witness :
    resolvePORT (some "9000") (some 8080) = JsNum.int 9000 :=
  portResolution_precedence_and_persist.1

/-- C8: on SIGTERM the handler exits within 10 seconds in every scenario;
when the close call itself throws, the exception is logged at error level
and the exit code is 1; otherwise the exit code is 0, the close callback
firing at time t at most 10 s produces exit at t with the close logged at
info level, and a callback that never fires still exits at the 10 s timer;
and SIGTERM is the only signal the bootstrap registers a handler for. -/
theorem sigterm_close_timer_and_codes (closeThrows : Bool) (closeCallbackAt : Option Nat) :
    (sigtermHandler closeThrows closeCallbackAt).exitAtMs ≤ 10000 ∧
    (closeThrows = true →
      (sigtermHandler closeThrows closeCallbackAt).exitCode = 1 ∧
      ((sigtermHandler closeThrows closeCallbackAt).logs.any fun l =>
        l.level == LogLevel.error) = true) ∧
    (closeThrows = false → (sigtermHandler closeThrows closeCallbackAt).exitCode = 0) ∧
    (∀ t, closeThrows = false → closeCallbackAt = some t → t ≤ 10000 →
      (sigtermHandler closeThrows closeCallbackAt).exitAtMs = t ∧
      ((sigtermHandler closeThrows closeCallbackAt).logs.any fun l =>
        l.level == LogLevel.info) = true) ∧
    (closeThrows = false → closeCallbackAt = none →
      (sigtermHandler closeThrows closeCallbackAt).exitAtMs = 10000) ∧
    handledSignals = ["SIGTERM"] := by
  refine ⟨?_, ?_, ?_, ?_, ?_, rfl⟩
  · cases closeThrows
    · rcases closeCallbackAt with _ | t
      · simp [sigtermHandler]
      · by_cases ht : t ≤ 10000
        · simp [sigtermHandler, ht]
        · simp [sigtermHandler, ht]
    · simp [sigtermHandler]
  · intro h
    subst h
    exact ⟨rfl, rfl⟩
  · intro h
    subst h
    rcases closeCallbackAt with _ | t
    · rfl
    · by_cases ht : t ≤ 10000 <;> simp [sigtermHandler, ht]
  · intro t h hcb hle
    subst h
    subst hcb
    simp [sigtermHandler, hle]
  · intro h hcb
    subst h
    subst hcb
    rfl

/-- C8 evaluation at a concrete input: a throwing close exits with code 1
and logs the exception. -/
theorem sigterm_close_timer_and_codes_witness :
    (sigtermHandler true none).exitCode = 1 ∧
    ((sigtermHandler true none).logs.any fun l => l.level == LogLevel.error) = true :=
  (sigterm_close_timer_and_codes true none).2.1 rfl

/-- C10: an empty-string environment override is a present override — the
effective port is Number of the empty string, 0, not the configured port and
not the hard default 8080; a non-numeric override yields NaN; and the
configured-port/default precedence applies only when the override variable
is entirely unset. -/
theorem portResolution_empty_override :
    resolvePORT (some "") (some 3000) = JsNum.int 0 ∧
    JsNum.int 0 ≠ JsNum.int 3000 ∧
    JsNum.int 0 ≠ JsNum.int 8080 ∧
    resolvePORT (some "abc") (some 3000) = JsNum.nan ∧
    (∀ s cfg cfg2, resolvePORT (some s) cfg = resolvePORT (some s) cfg2) ∧
    (∀ p, resolvePORT none (some p) = JsNum.int p) ∧
    resolvePORT none none = JsNum.int 8080 :=
  ⟨rfl, by decide, by decide, by decide, fun _ _ _ => rfl, fun _ => rfl, rfl⟩

/-- C10 evaluation at a concrete input: empty-string override resolves to 0. -/
theorem portResolution_empty_override_witness :
    resolvePORT (some "") (some 3000) = JsNum.int 0 :=
  portResolution_empty_override.1
